import Mathlib

/-!
Shallow embedding of the nodejs-snippets VS Code extension command handler
"nodejsSnippets.createApiStructure" from src/extension.ts, together with the
handler found in the compiled artifact dist/extension.js. The handler is
modelled as a function from the ambient workspace-folder list to either a
thrown error or the ordered list of effects it issues (directory creations,
file writes, notifications). A functional file-system semantics interprets
those effects so that state-level properties (idempotence, overwrite, frame)
can be proved.
-/

namespace NodeScaffold

/-- An effect issued by the command handler: a directory creation request, a
file write, an error notification, or an information notification. -/
inductive Event where
  | createDir (path : String)
  | writeFile (path : String) (content : String)
  | showError (msg : String)
  | showInfo (msg : String)
deriving DecidableEq

/-- The six fixed relative folder paths, in the order listed in the source. -/
def folders : List String :=
  ["src/controllers", "src/routes", "src/services",
   "src/models", "src/middlewares", "src/utils"]

/-- Path resolution against a root, as vscode.Uri.joinPath does for these
single-segment-free relative paths. -/
def joinPath (root rel : String) : String := root ++ "/" ++ rel

/-- The exact bytes written to src/package.json by the source handler: the
backtick template literal including the stray leading newline plus ten spaces
of indentation before the opening brace and the trailing newline plus ten
spaces after the closing brace. The template-literal escape before each inner
quote is consumed by the language, so the written text holds plain quotes. -/
def packageJsonContent : String :=
  "\n          \x7b\n  \"name\": \"node-js snippets\",\n  \"version\": \"1.0.0\",\n  \"description\": \"\",\n  \"main\": \"src/app.js\",\n  \"scripts\": \x7b\n    \"test\": \"echo \"Error: no test specified\" && exit 1\"\n  \x7d,\n  \"keywords\": [],\n  \"author\": \"\",\n  \"license\": \"ISC\"\n\x7d\n          "

/-- The exact bytes written to src/app.js by the source handler. -/
def appJsContent : String :=
  "import express from \x27express\x27;\nconst app = express();\n\napp.use(express.json());\n\n\n"

/-- The success notification text. -/
def successMsg : String := "Node.js API structure created successfully"

/-- The error notification text shown when no workspace folder is open. -/
def errorMsg : String := "Please open a folder first"

/-- Model of the runtime fault raised when the workspace-folder list is
present but empty: indexing it at 0 yields undefined and reading .uri throws. -/
def typeErrorMsg : String :=
  "TypeError: Cannot read properties of undefined (reading \x27uri\x27)"

/-- The ordered effect trace of a successful run of the source handler against
root: the six directory creations in listed order, the package.json write, the
app.js write, then the success notification. -/
def createTrace (root : String) : List Event :=
  folders.map (fun f => Event.createDir (joinPath root f)) ++
  [Event.writeFile (joinPath root "src/package.json") packageJsonContent,
   Event.writeFile (joinPath root "src/app.js") appJsContent,
   Event.showInfo successMsg]

/-- The command handler of src/extension.ts. An absent folder list takes the
guarded error path; a present list is indexed at 0, which on an empty list
faults before any effect is issued (the thrown error carries no events). -/
def createApiStructure (workspaceFolders : Option (List String)) :
    Except String (List Event) :=
  match workspaceFolders with
  | none => Except.ok [Event.showError errorMsg]
  | some roots =>
    match roots with
    | [] => Except.error typeErrorMsg
    | root :: _ => Except.ok (createTrace root)

/-- The exact bytes written to src/app.js by the compiled artifact
dist/extension.js (CommonJS style, no package.json write). -/
def appJsDistContent : String :=
  "const express = require(\x27express\x27);\nconst app = express();\n\napp.use(express.json());\n\nmodule.exports = app;\n"

/-- The ordered effect trace of a successful run of the compiled handler in
dist/extension.js: same guard and directories, but only one file write. -/
def createTraceDist (root : String) : List Event :=
  folders.map (fun f => Event.createDir (joinPath root f)) ++
  [Event.writeFile (joinPath root "src/app.js") appJsDistContent,
   Event.showInfo successMsg]

/-- The command handler of dist/extension.js. -/
def createApiStructureDist (workspaceFolders : Option (List String)) :
    Except String (List Event) :=
  match workspaceFolders with
  | none => Except.ok [Event.showError errorMsg]
  | some roots =>
    match roots with
    | [] => Except.error typeErrorMsg
    | root :: _ => Except.ok (createTraceDist root)

/-- A file-system entry: a directory or a file with its content. -/
inductive Entry where
  | dir
  | file (content : String)
deriving DecidableEq

/-- File-system abstraction: each path maps to nothing, a directory or a file. -/
def FS : Type := String → Option Entry

/-- Success semantics of one effect, following the vscode.workspace.fs
contract: createDirectory succeeds and is a no-op in effect when the directory
already exists, writeFile overwrites unconditionally, notifications do not
touch the file system. -/
def applyEvent (fs : FS) (e : Event) : FS :=
  match e with
  | Event.createDir p => fun q => if q = p then some Entry.dir else fs q
  | Event.writeFile p c => fun q => if q = p then some (Entry.file c) else fs q
  | Event.showError _ => fs
  | Event.showInfo _ => fs

/-- Run a whole effect trace against a file system, in order. -/
def applyAll (fs : FS) (es : List Event) : FS := es.foldl applyEvent fs

/-- Whether an effect is a user-visible notification. -/
def isNotif : Event → Bool
  | Event.showError _ => true
  | Event.showInfo _ => true
  | _ => false

/-- Whether an effect is a file-system operation. -/
def isFsOp : Event → Bool
  | Event.createDir _ => true
  | Event.writeFile _ _ => true
  | _ => false

/-- The target path of a file-system effect, if any. -/
def eventPath : Event → Option String
  | Event.createDir p => some p
  | Event.writeFile p _ => some p
  | _ => none

/-- The eight relative paths the source handler touches, in issue order. -/
def writtenRels : List String := folders ++ ["src/package.json", "src/app.js"]

/-- The eight absolute paths the source handler touches under a given root. -/
def writtenPaths (root : String) : List String := writtenRels.map (joinPath root)

/-- The entry an effect would store at a given path, if it targets that path. -/
def writeOf (e : Event) (q : String) : Option Entry :=
  match e with
  | Event.createDir p => if q = p then some Entry.dir else none
  | Event.writeFile p c => if q = p then some (Entry.file c) else none
  | _ => none

/-- The last entry a trace stores at a given path, scanning left to right. -/
def lastWrite (es : List Event) (q : String) : Option Entry :=
  es.foldl (fun acc e => match writeOf e q with
    | some v => some v
    | none => acc) none

/-- Sequential execution against a host that may fail individual operations:
events run in order and the first event on which the failure oracle fires
aborts the run (the handler has no try/catch, so nothing is caught and no
later event runs). Returns the events that completed, the resulting file
system, and whether a failure aborted the run. -/
def execFrom (failing : Event → FS → Bool) : List Event → FS → List Event × FS × Bool
  | [], fs => ([], fs, false)
  | e :: es, fs =>
    if failing e fs then ([], fs, true)
    else
      let r := execFrom failing es (applyEvent fs e)
      (e :: r.1, r.2.1, r.2.2)

/-- An empty file system, used to instantiate hypotheses concretely. -/
def emptyFS : FS := fun _ => none

/-- A failure oracle that fails the very first file-system operation. -/
def failFirstFsOp : Event → FS → Bool := fun e _ => isFsOp e

/-- The JSON field names the manifest content is required to carry. -/
def manifestFields : List String :=
  ["name", "version", "description", "main", "scripts", "test",
   "keywords", "author", "license"]

/-- Resolution against a fixed root is injective on relative paths. -/
lemma joinPath_injective (root : String) : Function.Injective (joinPath root) := by
  intro a b h
  have hd := congrArg String.data h
  simp only [joinPath, String.data_append] at hd
  exact String.ext (List.append_cancel_left hd)

/-- Pointwise reading of one applied effect in terms of the write it stores. -/
lemma applyEvent_apply (fs : FS) (e : Event) (q : String) :
    applyEvent fs e q = match writeOf e q with
      | some v => some v
      | none => fs q := by
  cases e with
  | createDir p => simp only [applyEvent, writeOf]; split <;> simp_all
  | writeFile p c => simp only [applyEvent, writeOf]; split <;> simp_all
  | showError m => rfl
  | showInfo m => rfl

/-- Folding the last-write scan from an arbitrary accumulator. -/
lemma lastWrite_foldl (q : String) : ∀ (es : List Event) (a : Option Entry),
    es.foldl (fun acc e => match writeOf e q with
      | some v => some v
      | none => acc) a = match lastWrite es q with
      | some v => some v
      | none => a := by
  intro es
  induction es with
  | nil => intro a; rfl
  | cons e es ih =>
    intro a
    have hR : lastWrite (e :: es) q = match lastWrite es q with
      | some v => some v
      | none => (match writeOf e q with
        | some v => some v
        | none => (none : Option Entry)) := ih _
    rw [List.foldl_cons, ih, hR]
    cases lastWrite es q <;> cases writeOf e q <;> rfl

/-- Running a trace reads back, at each path, the last entry the trace stores
there, or the initial state when the trace never touches the path. -/
lemma applyAll_apply : ∀ (es : List Event) (fs : FS) (q : String),
    applyAll fs es q = match lastWrite es q with
      | some v => some v
      | none => fs q := by
  intro es
  induction es with
  | nil => intro fs q; rfl
  | cons e es ih =>
    intro fs q
    have h1 : applyAll fs (e :: es) = applyAll (applyEvent fs e) es := rfl
    rw [h1, ih, applyEvent_apply]
    have hR : lastWrite (e :: es) q = match lastWrite es q with
      | some v => some v
      | none => (match writeOf e q with
        | some v => some v
        | none => (none : Option Entry)) := lastWrite_foldl q es _
    rw [hR]
    cases lastWrite es q <;> cases writeOf e q <;> rfl

/-- Every effect in this language stores a state-independent entry, so running
any trace a second time leaves the file system unchanged. -/
lemma applyAll_twice (es : List Event) (fs : FS) :
    applyAll (applyAll fs es) es = applyAll fs es := by
  funext q
  rw [applyAll_apply, applyAll_apply]
  cases h : lastWrite es q <;> simp [h, applyAll_apply]

/-- An aborted run executed exactly some strict initial segment of the trace,
its file system is that segment applied to the initial state, and the failure
oracle fired on the next event. -/
lemma execFrom_spec (failing : Event → FS → Bool) : ∀ (es : List Event) (fs : FS),
    (execFrom failing es fs).2.2 = true →
    ∃ k, ∃ hk : k < es.length,
      (execFrom failing es fs).1 = es.take k ∧
      (execFrom failing es fs).2.1 = applyAll fs (es.take k) ∧
      failing (es.get ⟨k, hk⟩) (applyAll fs (es.take k)) = true := by
  intro es
  induction es with
  | nil => intro fs h; exact absurd h (by simp [execFrom])
  | cons e es ih =>
    intro fs h
    by_cases hf : failing e fs
    · refine ⟨0, by simp, ?_, ?_, ?_⟩
      · simp [execFrom, hf]
      · simp [execFrom, hf, applyAll]
      · simpa [applyAll] using hf
    · have hr : (execFrom failing es (applyEvent fs e)).2.2 = true := by
        simpa [execFrom, hf] using h
      obtain ⟨k, hk, h1, h2, h3⟩ := ih (applyEvent fs e) hr
      refine ⟨k + 1, by simpa using Nat.succ_lt_succ hk, ?_, ?_, ?_⟩
      · simp [execFrom, hf, h1]
      · simpa [execFrom, hf, applyAll] using h2
      · simpa [applyAll] using h3

/-- C1: with a workspace root R present, createApiStructure issues exactly the
six directory creations R/src/controllers, R/src/routes, R/src/services,
R/src/models, R/src/middlewares, R/src/utils, then exactly two file writes,
R/src/package.json and R/src/app.js, where the app.js bytes are exactly the
Express bootstrap string, and then exactly one success notification. -/
theorem createApiStructure_happy_path (R : String) (rest : List String) :
    createApiStructure (some (R :: rest)) = Except.ok
      [Event.createDir (R ++ "/" ++ "src/controllers"),
       Event.createDir (R ++ "/" ++ "src/routes"),
       Event.createDir (R ++ "/" ++ "src/services"),
       Event.createDir (R ++ "/" ++ "src/models"),
       Event.createDir (R ++ "/" ++ "src/middlewares"),
       Event.createDir (R ++ "/" ++ "src/utils"),
       Event.writeFile (R ++ "/" ++ "src/package.json") packageJsonContent,
       Event.writeFile (R ++ "/" ++ "src/app.js")
         "import express from \x27express\x27;\nconst app = express();\n\napp.use(express.json());\n\n\n",
       Event.showInfo "Node.js API structure created successfully"] := rfl

/-- C2 counterexample: on a present-but-empty workspace-folder list the
handler does not produce the single error notification the claim requires; it
faults instead, so the claim fails for the empty case. -/
theorem emptyList_not_guarded :
    createApiStructure (some []) ≠
      Except.ok [Event.showError "Please open a folder first"] :=
  fun h => Except.noConfusion h

/-- C2 amended: when the ambient workspace-folder list is absent, the handler
performs zero file-system operations and emits exactly one error notification
reading "Please open a folder first". -/
theorem absent_workspace_error_path :
    createApiStructure none = Except.ok [Event.showError "Please open a folder first"] ∧
    ([Event.showError "Please open a folder first"].filter isFsOp).length = 0 :=
  ⟨rfl, rfl⟩

/-- C3: with a root present the handler writes src/package.json with the fixed
manifest bytes, which carry the quoted field names name, version, description,
main, scripts, test, keywords, author and license, and which are wrapped in
malformed whitespace: a leading newline plus indentation before the opening
brace and a trailing newline plus spaces after the closing brace. -/
theorem packageJson_manifest_malformed (R : String) (rest : List String) :
    createApiStructure (some (R :: rest)) = Except.ok (createTrace R) ∧
    Event.writeFile (joinPath R "src/package.json") packageJsonContent ∈ createTrace R ∧
    (manifestFields.all fun f =>
      decide ((("\"" ++ f ++ "\"").data) <:+: packageJsonContent.data)) = true ∧
    (∃ mid : String, packageJsonContent = "\n          \x7b" ++ mid ++ "\x7d\n          ") := by
  refine ⟨rfl, by simp [createTrace], ?_, ?_⟩
  · set_option maxRecDepth 10000 in decide
  · exact ⟨"\n  \"name\": \"node-js snippets\",\n  \"version\": \"1.0.0\",\n  \"description\": \"\",\n  \"main\": \"src/app.js\",\n  \"scripts\": \x7b\n    \"test\": \"echo \"Error: no test specified\" && exit 1\"\n  \x7d,\n  \"keywords\": [],\n  \"author\": \"\",\n  \"license\": \"ISC\"\n",
      by set_option maxRecDepth 10000 in decide⟩

/-- C4: with a root present, the file-system operations of the trace are the
six directory creations in listed order followed by the package.json write and
then the app.js write, and all targeted paths are pairwise distinct. -/
theorem scaffold_operation_order (R : String) (rest : List String) :
    createApiStructure (some (R :: rest)) = Except.ok (createTrace R) ∧
    (createTrace R).filter isFsOp =
      folders.map (fun f => Event.createDir (joinPath R f)) ++
      [Event.writeFile (joinPath R "src/package.json") packageJsonContent,
       Event.writeFile (joinPath R "src/app.js") appJsContent] ∧
    ((createTrace R).filterMap eventPath).Nodup := by
  refine ⟨rfl, rfl, ?_⟩
  have he : (createTrace R).filterMap eventPath = writtenRels.map (joinPath R) := rfl
  rw [he]
  exact List.Nodup.map (joinPath_injective R) (by decide)

/-- C5: invoking the handler twice on the same root is idempotent at the
file-system level, directory creation of an existing directory is modelled as
a non-failing no-op, and each invocation trace holds exactly one notification. -/
theorem scaffold_idempotent (R : String) (rest : List String) (fs : FS) :
    createApiStructure (some (R :: rest)) = Except.ok (createTrace R) ∧
    applyAll (applyAll fs (createTrace R)) (createTrace R) = applyAll fs (createTrace R) ∧
    ((createTrace R).filter isNotif).length = 1 :=
  ⟨rfl, applyAll_twice _ _, rfl⟩

/-- C6: whatever the prior file system holds at R/src/app.js and
R/src/package.json, after a successful run both files hold exactly the fixed
templates; prior content is discarded without confirmation. -/
theorem scaffold_overwrites (R : String) (rest : List String) (fs : FS) :
    createApiStructure (some (R :: rest)) = Except.ok (createTrace R) ∧
    applyAll fs (createTrace R) (joinPath R "src/app.js") =
      some (Entry.file appJsContent) ∧
    applyAll fs (createTrace R) (joinPath R "src/package.json") =
      some (Entry.file packageJsonContent) := by
  have hne : joinPath R "src/package.json" ≠ joinPath R "src/app.js" := by
    intro h
    exact absurd (joinPath_injective R h) (by decide)
  refine ⟨rfl, ?_, ?_⟩
  · simp [applyAll, createTrace, folders, applyEvent]
  · simp [applyAll, createTrace, folders, applyEvent, hne]

/-- C7: with roots R :: rest, every file-system operation of the run targets a
path resolved against R (the eight fixed relative paths), and any path not
among those eight targets is left unchanged, so later roots are untouched. -/
theorem scaffold_targets_first_root (R : String) (rest : List String) (fs : FS)
    (p : String) (h : p ∉ writtenPaths R) :
    createApiStructure (some (R :: rest)) = Except.ok (createTrace R) ∧
    (createTrace R).filterMap eventPath = writtenRels.map (joinPath R) ∧
    applyAll fs (createTrace R) p = fs p := by
  refine ⟨rfl, rfl, ?_⟩
  simp only [writtenPaths, writtenRels, folders, List.map_append, List.map_cons,
    List.map_nil, List.mem_append, List.mem_cons, List.not_mem_nil, or_false,
    not_or] at h
  obtain ⟨⟨h1, h2, h3, h4, h5, h6⟩, h7, h8⟩ := h
  simp [applyAll, createTrace, folders, applyEvent, h1, h2, h3, h4, h5, h6, h7, h8]

/-- C7 witness: with roots /r1 and /r2, the run resolves every operation
against /r1 and leaves the path /r2/src/app.js unchanged. -/
theorem scaffold_targets_first_root_witness :
    createApiStructure (some ["/r1", "/r2"]) = Except.ok (createTrace "/r1") ∧
    (createTrace "/r1").filterMap eventPath = writtenRels.map (joinPath "/r1") ∧
    applyAll emptyFS (createTrace "/r1") "/r2/src/app.js" = emptyFS "/r2/src/app.js" :=
  scaffold_targets_first_root "/r1" ["/r2"] emptyFS "/r2/src/app.js" (by decide)

/-- C8: if the host fails some individual operation, the run aborts there with
nothing caught: the success notification is never emitted, the executed events
are an initial segment of the trace (each attempted once, no retry), and the
resulting file system keeps exactly the effects already performed (no
cleanup). -/
theorem failure_aborts_uncaught (R : String) (rest : List String) (fs : FS)
    (failing : Event → FS → Bool)
    (hab : (execFrom failing (createTrace R) fs).2.2 = true) :
    createApiStructure (some (R :: rest)) = Except.ok (createTrace R) ∧
    Event.showInfo successMsg ∉ (execFrom failing (createTrace R) fs).1 ∧
    ∃ k, k ≤ 8 ∧
      (execFrom failing (createTrace R) fs).1 = (createTrace R).take k ∧
      (execFrom failing (createTrace R) fs).2.1 =
        applyAll fs ((createTrace R).take k) := by
  obtain ⟨k, hk, h1, h2, h3⟩ := execFrom_spec failing (createTrace R) fs hab
  have hlen : (createTrace R).length = 9 := rfl
  have hk8 : k ≤ 8 := by omega
  refine ⟨rfl, ?_, k, hk8, h1, h2⟩
  intro hmem
  rw [h1] at hmem
  have htk : (createTrace R).take k = ((createTrace R).take 8).take k := by
    rw [List.take_take]
    congr 1
    omega
  rw [htk] at hmem
  have hmem8 := List.take_subset k ((createTrace R).take 8) hmem
  simp [createTrace, folders, successMsg] at hmem8

/-- C8 witness: an oracle failing the first file-system operation aborts the
run on root /r with no success notification and an empty executed segment. -/
theorem failure_aborts_uncaught_witness :
    createApiStructure (some ["/r"]) = Except.ok (createTrace "/r") ∧
    Event.showInfo successMsg ∉ (execFrom failFirstFsOp (createTrace "/r") emptyFS).1 ∧
    ∃ k, k ≤ 8 ∧
      (execFrom failFirstFsOp (createTrace "/r") emptyFS).1 = (createTrace "/r").take k ∧
      (execFrom failFirstFsOp (createTrace "/r") emptyFS).2.1 =
        applyAll emptyFS ((createTrace "/r").take k) :=
  failure_aborts_uncaught "/r" [] emptyFS failFirstFsOp rfl

/-- C9: a present-but-empty workspace-folder list does not take the guarded
error path: indexing the empty list faults before any effect is issued, so the
run throws with no directory creation, no file write and no notification. -/
theorem empty_workspace_list_faults :
    createApiStructure (some []) = Except.error typeErrorMsg := rfl

/-- C10: the compiled artifact dist/extension.js diverges from the source
handler at the same input: it never writes src/package.json and its app.js
bytes are the CommonJS variant, not the ES-module template of the source. -/
theorem dist_artifact_diverges_from_source :
    createApiStructureDist (some ["/tmp/proj"]) = Except.ok (createTraceDist "/tmp/proj") ∧
    createApiStructure (some ["/tmp/proj"]) = Except.ok (createTrace "/tmp/proj") ∧
    createTraceDist "/tmp/proj" ≠ createTrace "/tmp/proj" ∧
    Event.writeFile (joinPath "/tmp/proj" "src/package.json") packageJsonContent ∉
      createTraceDist "/tmp/proj" ∧
    Event.writeFile (joinPath "/tmp/proj" "src/app.js") appJsDistContent ∈
      createTraceDist "/tmp/proj" ∧
    appJsDistContent ≠ appJsContent := by
  refine ⟨rfl, rfl, ?_, ?_, ?_, ?_⟩
  · set_option maxRecDepth 10000 in decide
  · set_option maxRecDepth 10000 in decide
  · set_option maxRecDepth 10000 in decide
  · set_option maxRecDepth 10000 in decide

end NodeScaffold
